import Mathlib

/-
  Shallow embedding of the UEBA risk-scoring engine (ueba_system.py).

  The SQLite store is modelled as a list of events in insertion order.
  Timestamps are integers (epoch milliseconds); "now" is passed explicitly.
  Python floats are modelled as rationals, and Python round(x, 2) as
  rounding 100*x to the nearest integer and dividing by 100.
  The IsolationForest model is opaque: a model is a function from a
  feature vector to its score_samples output, and training is an opaque
  function from the training matrix to a model; the engine code around
  them (feature extraction, sample-count gate, clamping, blending) is
  embedded faithfully.  ML_AVAILABLE is taken to be true (scikit-learn
  installed), the configuration the spec describes.
-/

namespace UEBA

/-- A row of the login_attempts table. -/
structure Event where
  username : String
  step : ℤ
  device_id : String
  network_operator : String
  latency : ℚ
  fingerprint : String
  ip_address : String
  user_agent : String
  timestamp : ℤ
  success : Bool
  risk_score : ℚ
deriving DecidableEq

/-- The params dict passed to log_attempt; absent keys are None here.
The step key is only ever read by get_ml_risk_score via params.get with
default 1. -/
structure Params where
  device_id : Option String := none
  network_operator : Option String := none
  latency : Option ℚ := none
  fingerprint : Option String := none
  ip_address : Option String := none
  user_agent : Option String := none
  step : Option ℤ := none
deriving DecidableEq

/-- SELECT COUNT(*) WHERE username = u AND timestamp > since. -/
def countSince (evs : List Event) (u : String) (since : ℤ) : ℕ :=
  (evs.filter (fun e => e.username == u && decide (since < e.timestamp))).length

/-- SELECT COUNT(DISTINCT device_id) WHERE username = u AND timestamp > since. -/
def distinctDevicesSince (evs : List Event) (u : String) (since : ℤ) : ℕ :=
  ((evs.filter (fun e => e.username == u && decide (since < e.timestamp))).map
    (fun e => e.device_id)).dedup.length

/-- SELECT COUNT(DISTINCT network_operator) WHERE username = u AND
timestamp > since AND network_operator != ''. -/
def distinctOperatorsSince (evs : List Event) (u : String) (since : ℤ) : ℕ :=
  ((evs.filter (fun e =>
      e.username == u && decide (since < e.timestamp) && !(e.network_operator == ""))).map
    (fun e => e.network_operator)).dedup.length

/-- SELECT AVG(latency) WHERE username = u AND latency > 0, with the
Python fallback `or 150` when the result is NULL.  (All averaged values
are positive, so the truthiness fallback coincides with the NULL case.) -/
def avgLatency (evs : List Event) (u : String) : ℚ :=
  let lats := (evs.filter (fun e => e.username == u && decide (0 < e.latency))).map
    (fun e => e.latency)
  if lats.length = 0 then 150 else lats.sum / lats.length

/-- SELECT timestamp WHERE username = u ORDER BY timestamp DESC LIMIT 2. -/
def lastTwoTimestamps (evs : List Event) (u : String) : List ℤ :=
  (((evs.filter (fun e => e.username == u)).map (fun e => e.timestamp)).insertionSort
    (fun a b => b ≤ a)).take 2

/-- SELECT fingerprint WHERE username = u AND fingerprint != ''
ORDER BY timestamp DESC LIMIT 1 (on equal timestamps the later insertion
wins). -/
def lastNonemptyFingerprint (evs : List Event) (u : String) : Option String :=
  ((evs.filter (fun e => e.username == u && !(e.fingerprint == ""))).foldl
    (fun acc e =>
      match acc with
      | none => some e
      | some a => if a.timestamp ≤ e.timestamp then some e else some a)
    none).map (fun e => e.fingerprint)

/-- Whether the list starting here begins with the needle. -/
def listStartsWith : List Char → List Char → Bool
  | [], _ => true
  | _ :: _, [] => false
  | a :: as, b :: bs => a == b && listStartsWith as bs

/-- Whether the needle occurs as a contiguous run of the haystack. -/
def listOccurs (needle : List Char) : List Char → Bool
  | [] => needle.isEmpty
  | b :: bs => listStartsWith needle (b :: bs) || listOccurs needle bs

/-- Python `needle in hay.upper()` for ASCII data: uppercase the haystack
characterwise, then look for the needle. -/
def strOccursUpper (needle hay : String) : Bool :=
  listOccurs needle.toList (hay.toList.map Char.toUpper)

/-- The breakdown dict built by calculate_risk_score. -/
structure Scores where
  velocity : ℚ
  device_switching : ℚ
  network_switching : ℚ
  latency_anomaly : ℚ
  timing_pattern : ℚ
  fingerprint_change : ℚ
  device_spoofing : ℚ
deriving DecidableEq

/-- Signal 1: velocity tiering on the 5-minute attempt count. -/
def velocityScore (n : ℕ) : ℚ :=
  if n > 10 then 95 else if n > 5 then 70 else if n > 3 then 40 else 0

/-- Signal 2: device-switching tiering on the 30-minute distinct-device count. -/
def deviceScore (n : ℕ) : ℚ :=
  if n > 5 then 90 else if n > 3 then 60 else if n > 1 then 30 else 0

/-- Signal 3: network-switching tiering on the 30-minute distinct-operator count. -/
def networkScore (n : ℕ) : ℚ :=
  if n > 3 then 85 else if n > 1 then 50 else 0

/-- Signal 4: latency anomaly from the current latency and the historical average. -/
def latencyScore (current avg : ℚ) : ℚ :=
  if current < 50 then 70 else if |current - avg| > 200 then 50 else 0

/-- Signal 5: timing pattern from the last two prior timestamps (descending). -/
def timingScore : List ℤ → ℚ
  | [t1, t2] => if t1 - t2 < 1000 then 80 else if t1 - t2 < 5000 then 50 else 0
  | _ => 0

/-- Signal 6: fingerprint consistency; the current fingerprint must be a
truthy value (present and non-empty) for the comparison to run at all. -/
def fingerprintScore (lastFp cur : Option String) : ℚ :=
  match lastFp, cur with
  | some lf, some c => if c == "" then 0 else if lf ≠ c then 60 else 0
  | _, _ => 0

/-- Signal 7: device-id spoofing patterns, case-insensitive. -/
def spoofScore (device : String) : ℚ :=
  if strOccursUpper "BYPASS" device || strOccursUpper "TEST" device
      || strOccursUpper "EMULATOR" device then 85 else 0

/-- The fixed-weight linear combination of the seven signals. -/
def weightedTotal (s : Scores) : ℚ :=
  s.velocity * (25/100) + s.device_switching * (20/100)
    + s.network_switching * (15/100) + s.latency_anomaly * (15/100)
    + s.timing_pattern * (10/100) + s.fingerprint_change * (10/100)
    + s.device_spoofing * (5/100)

/-- Model of Python round(x, 2). -/
def round2 (x : ℚ) : ℚ := (round (100 * x) : ℚ) / 100

/-- UEBASystem.calculate_risk_score: the seven signals over the store as
read before the current event is persisted, then the weighted total
rounded to two decimals. -/
def calculate_risk_score (evs : List Event) (u : String) (p : Params) (now : ℤ) :
    ℚ × Scores :=
  let s : Scores := {
    velocity := velocityScore (countSince evs u (now - 300000))
    device_switching := deviceScore (distinctDevicesSince evs u (now - 1800000))
    network_switching := networkScore (distinctOperatorsSince evs u (now - 1800000))
    latency_anomaly := latencyScore (p.latency.getD 150) (avgLatency evs u)
    timing_pattern := timingScore (lastTwoTimestamps evs u)
    fingerprint_change := fingerprintScore (lastNonemptyFingerprint evs u) p.fingerprint
    device_spoofing := spoofScore (p.device_id.getD "") }
  (round2 (weightedTotal s), s)

/-- An IsolationForest snapshot, opaque to the engine: score_samples on a
single feature vector.  (The predict call in get_ml_risk_score is computed
but its result never used, so it is not modelled.) -/
def Model : Type := List ℚ → ℚ

/-- IsolationForest fitting, opaque to the engine: training matrix to model. -/
def TrainFn : Type := List (List ℚ) → Model

/-- The feature vector get_ml_risk_score builds for the current attempt:
latency (default 150), the rule-based risk score recomputed over the
store, the step read from params with default 1, the 5-minute count and
the 30-minute distinct-device count of already-stored events. -/
def score_features (evs : List Event) (u : String) (p : Params) (now : ℤ) : List ℚ :=
  [p.latency.getD 150,
   (calculate_risk_score evs u p now).1,
   ((p.step.getD 1 : ℤ) : ℚ),
   ((countSince evs u (now - 300000) : ℕ) : ℚ),
   ((distinctDevicesSince evs u (now - 1800000) : ℕ) : ℚ)]

/-- UEBASystem.get_ml_risk_score with a present model: the negated
score_samples output scaled by 100, clamped into [0, 100], rounded. -/
def get_ml_risk_score (m : Model) (evs : List Event) (u : String) (p : Params)
    (now : ℤ) : ℚ :=
  let anomaly_score := m (score_features evs u p now)
  round2 (max 0 (min 100 ((-anomaly_score) * 100)))

/-- The velocity subquery of the training SQL for row l1 = e: count of the
rows of the same user with l2.timestamp > l1.timestamp - 300000.  The
WHERE clause bounds the timestamp from below only. -/
def trainVelocity (evs : List Event) (e : Event) : ℕ :=
  (evs.filter (fun x =>
    x.username == e.username && decide (e.timestamp - 300000 < x.timestamp))).length

/-- The device-count subquery of the training SQL for row l1 = e: distinct
device_id over the rows of the same user with
l3.timestamp > l1.timestamp - 1800000, again bounded from below only. -/
def trainDeviceCount (evs : List Event) (e : Event) : ℕ :=
  ((evs.filter (fun x =>
    x.username == e.username && decide (e.timestamp - 1800000 < x.timestamp))).map
    (fun x => x.device_id)).dedup.length

/-- One training row for event e of the SQL in train_ml_model: the stored
latency, the stored risk_score and the stored step, then the two
correlated-subquery counts. -/
def train_row (evs : List Event) (e : Event) : List ℚ :=
  [e.latency, e.risk_score, ((e.step : ℤ) : ℚ),
   ((trainVelocity evs e : ℕ) : ℚ), ((trainDeviceCount evs e : ℕ) : ℚ)]

/-- The training matrix of train_ml_model: one row per stored event with
latency > 0 (the subquery counts still range over the whole table). -/
def train_data (evs : List Event) : List (List ℚ) :=
  (evs.filter (fun e => decide (0 < e.latency))).map (train_row evs)

/-- UEBASystem.train_ml_model: a no-op keeping the current model when
fewer than 10 rows qualify, otherwise a wholesale replacement. -/
def train_ml_model (fit : TrainFn) (evs : List Event) (m : Option Model) :
    Option Model :=
  let data := train_data evs
  if data.length < 10 then m else some (fit data)

/-- Engine state: the stored events and the current model, if any. -/
structure UEBAState where
  events : List Event
  ml_model : Option Model

/-- What UEBASystem.log_attempt returns and does: the final risk score,
the breakdown (with the ml_anomaly entry when a model was consulted), the
state after the append and any retrain, and whether a retrain was
attempted. -/
structure LogResult where
  risk_score : ℚ
  breakdown : Scores
  ml_anomaly : Option ℚ
  state : UEBAState
  retrained : Bool

/-- UEBASystem.log_attempt: score with the rules, blend with the ML score
when a model is present, persist the event (absent params default to ''
and latency to 0), then attempt a retrain when the post-write total is a
positive multiple of 50. -/
def log_attempt (fit : TrainFn) (st : UEBAState) (username : String) (step : ℤ)
    (p : Params) (success : Bool) (now : ℤ) : LogResult :=
  let rb := calculate_risk_score st.events username p now
  let mlPart : Option ℚ :=
    st.ml_model.map (fun m => get_ml_risk_score m st.events username p now)
  let risk : ℚ :=
    match mlPart with
    | some ml => round2 (rb.1 * (7/10) + ml * (3/10))
    | none => rb.1
  let ev : Event := {
    username := username, step := step
    device_id := p.device_id.getD "", network_operator := p.network_operator.getD ""
    latency := p.latency.getD 0, fingerprint := p.fingerprint.getD ""
    ip_address := p.ip_address.getD "", user_agent := p.user_agent.getD ""
    timestamp := now, success := success, risk_score := risk }
  let events' := st.events ++ [ev]
  let total := events'.length
  let retrain : Bool := decide (total % 50 = 0) && decide (0 < total)
  let model' := if retrain then train_ml_model fit events' st.ml_model else st.ml_model
  { risk_score := risk, breakdown := rb.2, ml_anomaly := mlPart
    state := { events := events', ml_model := model' }, retrained := retrain }

/-- The abandonment-count query of check_abandonment: the events of the
user with step < 3 and success = 0 within the last 60 minutes. -/
def abandonment_count (evs : List Event) (u : String) (now : ℤ) : ℕ :=
  (evs.filter (fun e => e.username == u && decide (now - 3600000 < e.timestamp)
    && decide (e.step < 3) && (e.success == false))).length

/-- UEBASystem.check_abandonment: base risk from the last completed step
plus one escalation tier from the abandonment count of the last hour. -/
def check_abandonment (evs : List Event) (u : String) (last_step : ℤ) (now : ℤ) : ℚ :=
  let c := abandonment_count evs u now
  let base_risk : ℚ := if last_step = 1 then 12 else if last_step = 2 then 18 else 0
  base_risk + (if c > 5 then 15 else if c > 3 then 10 else if c > 1 then 6 else 0)

/-! Spec-side definitions, written from the words of the claims, to be
compared with the definitions embedded from the source. -/

/-- The velocity tiering as the claims state it: 95 if the preceding
5-minute count exceeds 10, else 70 above 5, else 40 above 3, else 0. -/
def velocity_tier (c : ℕ) : ℚ :=
  if c > 10 then 95 else if c > 5 then 70 else if c > 3 then 40 else 0

/-- The abandonment escalation as the claims state it: +15 above 5 prior
abandonments, else +10 above 3, else +6 above 1, else +0. -/
def escalation_tier (c : ℕ) : ℚ :=
  if c > 5 then 15 else if c > 3 then 10 else if c > 1 then 6 else 0

/-- The fingerprint signal as amended: 60 exactly when a non-empty
fingerprint is on record, the current fingerprint is present and
non-empty, and the two differ; otherwise 0. -/
def fingerprint_change_amended (lastFp cur : Option String) : ℚ :=
  match lastFp, cur with
  | some lf, some c => if c ≠ "" ∧ lf ≠ c then 60 else 0
  | _, _ => 0

/-- Count of the user's events inside the half-open window (lo, hi]. -/
def windowCount (evs : List Event) (u : String) (lo hi : ℤ) : ℕ :=
  (evs.filter (fun e => e.username == u && decide (lo < e.timestamp)
    && decide (e.timestamp ≤ hi))).length

/-- Count of the user's events strictly after time t. -/
def countAfter (evs : List Event) (u : String) (t : ℤ) : ℕ :=
  (evs.filter (fun e => e.username == u && decide (t < e.timestamp))).length

/-- Count of the user's events strictly inside the window (lo, hi). -/
def countBetween (evs : List Event) (u : String) (lo hi : ℤ) : ℕ :=
  (evs.filter (fun e => e.username == u && decide (lo < e.timestamp)
    && decide (e.timestamp < hi))).length

/-- Distinct device_id count of the user's events strictly inside the
window (lo, hi). -/
def distinctDevicesBetween (evs : List Event) (u : String) (lo hi : ℤ) : ℕ :=
  ((evs.filter (fun e => e.username == u && decide (lo < e.timestamp)
    && decide (e.timestamp < hi))).map (fun e => e.device_id)).dedup.length

/-- The training feature row as the claim describes it: latency, risk,
step, then the count of the user's events in the preceding 5-minute
window and the distinct-device count of the preceding 30-minute window,
the current event excluded (the spec fixes window counts as exclusive of
the event being scored). -/
def claimed_feature_row (evs : List Event) (e : Event) : List ℚ :=
  [e.latency, e.risk_score, ((e.step : ℤ) : ℚ),
   ((countBetween evs e.username (e.timestamp - 300000) e.timestamp : ℕ) : ℚ),
   ((distinctDevicesBetween evs e.username (e.timestamp - 1800000) e.timestamp : ℕ) : ℚ)]

/-! Concrete fixtures used by witnesses and counterexamples. -/

/-- A trivial anomaly model: score_samples constantly 0. -/
def trivialModel : Model := fun _ => 0

/-- A trivial training function, standing in for IsolationForest fitting. -/
def tf0 : TrainFn := fun _ => trivialModel

/-- The empty engine state: no events, no model. -/
def st0 : UEBAState := ⟨[], none⟩

/-- A params dict with every key absent. -/
def p0 : Params := {}

/-- Fixture for C5: a first event of user u at time 0 on device d1. -/
def e5a : Event :=
  ⟨"u", 1, "d1", "", 100, "", "", "", 0, true, 0⟩

/-- Fixture for C5: a later event of the same user inside the 5-minute
window after e5a, on another device. -/
def e5b : Event :=
  ⟨"u", 1, "d2", "", 100, "", "", "", 100000, true, 0⟩

/-- Fixture for C8: a stored event of alice carrying the non-empty
fingerprint abc. -/
def e8 : Event :=
  ⟨"alice", 1, "d", "", 100, "abc", "", "", 1000, true, 0⟩

/-- Fixture for C8: a current attempt whose fingerprint key is present
but empty. -/
def p8 : Params := { fingerprint := some "" }

/-! Helper lemmas. -/

theorem round2_nonneg (x : ℚ) (hx : 0 ≤ x) : 0 ≤ round2 x := by
  have h : (0 : ℤ) ≤ round (100 * x) := by
    rw [round_eq]
    exact Int.le_floor.mpr (by push_cast; linarith)
  have h2 : (0 : ℚ) ≤ (round (100 * x) : ℚ) := by exact_mod_cast h
  unfold round2
  exact div_nonneg h2 (by norm_num)

theorem round2_le_hundred (x : ℚ) (hx : x ≤ 100) : round2 x ≤ 100 := by
  have h1 : ((round (100 * x) : ℤ) : ℚ) ≤ 100 * x + 1 / 2 := by
    rw [round_eq]
    exact_mod_cast Int.floor_le (100 * x + 1 / 2)
  have h2 : ((round (100 * x) : ℤ) : ℚ) < 10001 := by linarith
  have h3 : round (100 * x) ≤ 10000 :=
    Int.lt_add_one_iff.mp (by exact_mod_cast h2)
  unfold round2
  rw [div_le_iff (by norm_num : (0 : ℚ) < 100)]
  have h4 : ((round (100 * x) : ℤ) : ℚ) ≤ 10000 := by exact_mod_cast h3
  linarith

theorem velocityScore_bounds (n : ℕ) : 0 ≤ velocityScore n ∧ velocityScore n ≤ 95 := by
  unfold velocityScore; split_ifs <;> norm_num

theorem deviceScore_bounds (n : ℕ) : 0 ≤ deviceScore n ∧ deviceScore n ≤ 90 := by
  unfold deviceScore; split_ifs <;> norm_num

theorem networkScore_bounds (n : ℕ) : 0 ≤ networkScore n ∧ networkScore n ≤ 85 := by
  unfold networkScore; split_ifs <;> norm_num

theorem latencyScore_bounds (c a : ℚ) : 0 ≤ latencyScore c a ∧ latencyScore c a ≤ 70 := by
  unfold latencyScore; split_ifs <;> norm_num

theorem timingScore_bounds (l : List ℤ) : 0 ≤ timingScore l ∧ timingScore l ≤ 80 := by
  rcases l with _ | ⟨a, _ | ⟨b, _ | ⟨c, l⟩⟩⟩ <;> simp [timingScore] <;> split_ifs <;> norm_num

theorem fingerprintScore_bounds (lf cur : Option String) :
    0 ≤ fingerprintScore lf cur ∧ fingerprintScore lf cur ≤ 60 := by
  rcases lf with _ | f <;> rcases cur with _ | c <;> simp [fingerprintScore] <;>
    split_ifs <;> norm_num

theorem spoofScore_bounds (d : String) : 0 ≤ spoofScore d ∧ spoofScore d ≤ 85 := by
  unfold spoofScore; split_ifs <;> norm_num

theorem weightedTotal_bounds (s : Scores)
    (h1 : 0 ≤ s.velocity ∧ s.velocity ≤ 95)
    (h2 : 0 ≤ s.device_switching ∧ s.device_switching ≤ 90)
    (h3 : 0 ≤ s.network_switching ∧ s.network_switching ≤ 85)
    (h4 : 0 ≤ s.latency_anomaly ∧ s.latency_anomaly ≤ 70)
    (h5 : 0 ≤ s.timing_pattern ∧ s.timing_pattern ≤ 80)
    (h6 : 0 ≤ s.fingerprint_change ∧ s.fingerprint_change ≤ 60)
    (h7 : 0 ≤ s.device_spoofing ∧ s.device_spoofing ≤ 85) :
    0 ≤ weightedTotal s ∧ weightedTotal s ≤ 100 := by
  obtain ⟨h1a, h1b⟩ := h1
  obtain ⟨h2a, h2b⟩ := h2
  obtain ⟨h3a, h3b⟩ := h3
  obtain ⟨h4a, h4b⟩ := h4
  obtain ⟨h5a, h5b⟩ := h5
  obtain ⟨h6a, h6b⟩ := h6
  obtain ⟨h7a, h7b⟩ := h7
  unfold weightedTotal
  constructor <;> nlinarith [h1a, h1b, h2a, h2b, h3a, h3b, h4a, h4b, h5a, h5b,
    h6a, h6b, h7a, h7b]

theorem rule_score_bounds (evs : List Event) (u : String) (p : Params) (now : ℤ) :
    0 ≤ (calculate_risk_score evs u p now).1 ∧ (calculate_risk_score evs u p now).1 ≤ 100 := by
  have hb := weightedTotal_bounds (calculate_risk_score evs u p now).2
    (velocityScore_bounds _) (deviceScore_bounds _) (networkScore_bounds _)
    (latencyScore_bounds _ _) (timingScore_bounds _) (fingerprintScore_bounds _ _)
    (spoofScore_bounds _)
  exact ⟨round2_nonneg _ hb.1, round2_le_hundred _ hb.2⟩

theorem ml_score_bounds (m : Model) (evs : List Event) (u : String) (p : Params)
    (now : ℤ) :
    0 ≤ get_ml_risk_score m evs u p now ∧ get_ml_risk_score m evs u p now ≤ 100 := by
  simp only [get_ml_risk_score]
  exact ⟨round2_nonneg _ (le_max_left _ _),
    round2_le_hundred _ (max_le (by norm_num) (min_le_left _ _))⟩

theorem log_attempt_risk_none (fit : TrainFn) (evs : List Event) (u : String)
    (step : ℤ) (p : Params) (success : Bool) (now : ℤ) :
    (log_attempt fit ⟨evs, none⟩ u step p success now).risk_score =
      (calculate_risk_score evs u p now).1 := rfl

theorem log_attempt_risk_some (fit : TrainFn) (evs : List Event) (m : Model)
    (u : String) (step : ℤ) (p : Params) (success : Bool) (now : ℤ) :
    (log_attempt fit ⟨evs, some m⟩ u step p success now).risk_score =
      round2 ((calculate_risk_score evs u p now).1 * (7/10)
        + get_ml_risk_score m evs u p now * (3/10)) := rfl

/-- C1: for every submitted attempt, with or without an anomaly model, the
risk_score returned by log_attempt lies in [0, 100]. -/
theorem C1_risk_score_in_range (fit : TrainFn) (st : UEBAState) (u : String)
    (step : ℤ) (p : Params) (success : Bool) (now : ℤ) :
    0 ≤ (log_attempt fit st u step p success now).risk_score ∧
      (log_attempt fit st u step p success now).risk_score ≤ 100 := by
  obtain ⟨evs, mm⟩ := st
  have hr := rule_score_bounds evs u p now
  cases mm with
  | none => rw [log_attempt_risk_none]; exact hr
  | some m =>
    have hm := ml_score_bounds m evs u p now
    rw [log_attempt_risk_some]
    exact ⟨round2_nonneg _ (by nlinarith [hr.1, hm.1]),
      round2_le_hundred _ (by nlinarith [hr.2, hm.2])⟩

/-- C3: when no model is present the final score is the rule-based score
unchanged; when a model is present it is round(0.7 * rule + 0.3 * ml, 2). -/
theorem C3_blend_formula (fit : TrainFn) (evs : List Event) (m : Model) (u : String)
    (step : ℤ) (p : Params) (success : Bool) (now : ℤ) :
    (log_attempt fit ⟨evs, none⟩ u step p success now).risk_score =
        (calculate_risk_score evs u p now).1 ∧
    (log_attempt fit ⟨evs, some m⟩ u step p success now).risk_score =
        round2 ((calculate_risk_score evs u p now).1 * (7/10)
          + get_ml_risk_score m evs u p now * (3/10)) :=
  ⟨rfl, rfl⟩

theorem log_attempt_retrained_eq (fit : TrainFn) (st : UEBAState) (u : String)
    (step : ℤ) (p : Params) (success : Bool) (now : ℤ) :
    (log_attempt fit st u step p success now).retrained =
      (decide ((st.events.length + 1) % 50 = 0) && decide (0 < st.events.length + 1)) := by
  obtain ⟨evs, mm⟩ := st
  cases mm <;> simp [log_attempt]

/-- C4: a retrain of the anomaly model is attempted exactly when the
post-write event count is a multiple of 50. -/
theorem C4_retrain_iff (fit : TrainFn) (st : UEBAState) (u : String)
    (step : ℤ) (p : Params) (success : Bool) (now : ℤ) :
    (log_attempt fit st u step p success now).retrained = true ↔
      (st.events.length + 1) % 50 = 0 := by
  rw [log_attempt_retrained_eq]
  simp

/-- C2 counterexample: log_attempt with the invalid step 7 and a params
dict missing every required key does not fail: it returns the risk score
0 and persists one event recording step 7. -/
theorem C2_counterexample :
    (log_attempt tf0 st0 "alice" 7 p0 true 0).risk_score = 0 ∧
    (log_attempt tf0 st0 "alice" 7 p0 true 0).state.events.length = 1 ∧
    ((log_attempt tf0 st0 "alice" 7 p0 true 0).state.events.map
      (fun e => e.step)) = [7] := by
  refine ⟨?_, ?_, ?_⟩
  · simp [log_attempt, st0, calculate_risk_score, countSince, distinctDevicesSince,
      distinctOperatorsSince, avgLatency, lastTwoTimestamps, lastNonemptyFingerprint,
      velocityScore, deviceScore, networkScore, latencyScore, timingScore,
      fingerprintScore, spoofScore, strOccursUpper, listOccurs, weightedTotal,
      round2, p0]
    norm_num
  · simp [log_attempt, st0]
  · simp [log_attempt, st0]

/-- C2 amended: log_attempt performs no validation at all: for every
username, step value and params dict it returns normally and appends
exactly one event, recording the submitted step unchanged and filling
missing parameters with defaults (strings default to the empty string,
the persisted latency to 0). -/
theorem C2_amended_no_validation (fit : TrainFn) (st : UEBAState) (u : String)
    (step : ℤ) (p : Params) (success : Bool) (now : ℤ) :
    ∃ e : Event,
      (log_attempt fit st u step p success now).state.events = st.events ++ [e] ∧
      e.step = step ∧ e.device_id = p.device_id.getD "" ∧
      e.latency = p.latency.getD 0 ∧ e.fingerprint = p.fingerprint.getD "" ∧
      e.risk_score = (log_attempt fit st u step p success now).risk_score := by
  obtain ⟨evs, mm⟩ := st
  cases mm with
  | none => exact ⟨_, rfl, rfl, rfl, rfl, rfl, rfl⟩
  | some m => exact ⟨_, rfl, rfl, rfl, rfl, rfl, rfl⟩

/-- C6: for last_step 1 or 2, check_abandonment returns base 12 or 18 plus
the single highest applicable escalation tier of the 60-minute
abandonment count. -/
theorem C6_abandonment_formula (evs : List Event) (u : String) (last_step now : ℤ)
    (h : last_step = 1 ∨ last_step = 2) :
    check_abandonment evs u last_step now =
      (if last_step = 1 then (12 : ℚ) else 18)
        + escalation_tier (abandonment_count evs u now) := by
  rcases h with h | h <;> subst h <;> simp [check_abandonment, escalation_tier]

/-- C6 witness: a first-ever step-1 abandonment scores exactly 12. -/
theorem C6_witness : check_abandonment [] "u" 1 0 = 12 := by
  have h := C6_abandonment_formula [] "u" 1 0 (Or.inl rfl)
  rw [h]
  simp [abandonment_count, escalation_tier]

/-- C7: the velocity signal is exactly the claimed tiering of the count of
the user's stored events in the 5-minute window before now, and the tiers
evaluate to 40, 70, 95 and 0 at counts 4, 6, 11 and 0. -/
theorem C7_velocity_tiering (evs : List Event) (u : String) (p : Params) (now : ℤ) :
    (calculate_risk_score evs u p now).2.velocity =
        velocity_tier (countSince evs u (now - 300000)) ∧
    velocity_tier 4 = 40 ∧ velocity_tier 6 = 70 ∧ velocity_tier 11 = 95 ∧
    velocity_tier 0 = 0 ∧ (calculate_risk_score [] u p now).2.velocity = 0 := by
  refine ⟨rfl, by norm_num [velocity_tier], by norm_num [velocity_tier],
    by norm_num [velocity_tier], by norm_num [velocity_tier], ?_⟩
  show velocityScore (countSince [] u (now - 300000)) = 0
  norm_num [countSince, velocityScore]

/-- C9: a retrain with fewer than 10 qualifying samples is a no-op: the
previously active model, or the absence of one, is returned unchanged. -/
theorem C9_insufficient_samples (fit : TrainFn) (evs : List Event)
    (m : Option Model) (h : (train_data evs).length < 10) :
    train_ml_model fit evs m = m := by
  unfold train_ml_model
  exact if_pos h

/-- C9 witness: training on an empty store keeps the absent model absent. -/
theorem C9_witness : train_ml_model tf0 [] none = none :=
  C9_insufficient_samples tf0 [] none (by simp [train_data])

/-- C8 counterexample: with the non-empty fingerprint abc on record and a
current attempt whose fingerprint is the empty string (which differs from
abc), the signal is 0, not the 60 the claim requires for a differing
fingerprint. -/
theorem C8_counterexample :
    lastNonemptyFingerprint [e8] "alice" = some "abc" ∧
    p8.fingerprint = some "" ∧ ("abc" : String) ≠ "" ∧
    (calculate_risk_score [e8] "alice" p8 1000000).2.fingerprint_change = 0 := by
  refine ⟨by decide, rfl, by decide, ?_⟩
  show fingerprintScore (lastNonemptyFingerprint [e8] "alice") p8.fingerprint = 0
  simp [lastNonemptyFingerprint, fingerprintScore, e8, p8]

/-- C8 amended: fingerprint_change is 60 exactly when a non-empty
fingerprint is on record, the current fingerprint is present and
non-empty, and the two differ; in every other case — same fingerprint,
none on record, or a current fingerprint that is absent or empty — it
is 0. -/
theorem C8_amended_fingerprint (evs : List Event) (u : String) (p : Params)
    (now : ℤ) :
    (calculate_risk_score evs u p now).2.fingerprint_change =
      fingerprint_change_amended (lastNonemptyFingerprint evs u) p.fingerprint := by
  show fingerprintScore (lastNonemptyFingerprint evs u) p.fingerprint =
    fingerprint_change_amended (lastNonemptyFingerprint evs u) p.fingerprint
  rcases lastNonemptyFingerprint evs u with _ | lf <;>
    rcases p.fingerprint with _ | c <;>
      simp [fingerprintScore, fingerprint_change_amended]
  by_cases hc : c = "" <;> by_cases h2 : lf = c <;> simp [hc, h2]

/-- C10: when params omit latency, scoring behaves exactly as if the
current latency were 150 — so the latency signal never takes the
below-50 value 70 — yet the event is persisted with latency 0, which
keeps it out of the latency-positive filter that feeds both the latency
average and the training rows. -/
theorem C10_missing_latency (fit : TrainFn) (st : UEBAState) (u : String)
    (step : ℤ) (p : Params) (success : Bool) (now : ℤ) (h : p.latency = none) :
    calculate_risk_score st.events u p now =
        calculate_risk_score st.events u { p with latency := some 150 } now ∧
    (calculate_risk_score st.events u p now).2.latency_anomaly ≠ 70 ∧
    (∃ e : Event,
      (log_attempt fit st u step p success now).state.events = st.events ++ [e] ∧
      e.latency = 0) ∧
    ((log_attempt fit st u step p success now).state.events.filter
        (fun e => decide (0 < e.latency)) =
      st.events.filter (fun e => decide (0 < e.latency))) ∧
    (train_data (log_attempt fit st u step p success now).state.events).length =
      (train_data st.events).length ∧
    (∀ u' : String,
      avgLatency (log_attempt fit st u step p success now).state.events u' =
        avgLatency st.events u') := by
  obtain ⟨evs, mm⟩ := st
  have hev : ∀ r : LogResult,
      (∃ e : Event, r.state.events = evs ++ [e] ∧ e.latency = 0) →
      (r.state.events.filter (fun e => decide (0 < e.latency)) =
        evs.filter (fun e => decide (0 < e.latency))) := by
    rintro r ⟨e, he, hl⟩
    rw [he, List.filter_append]
    simp [hl]
  have hsig : calculate_risk_score evs u p now =
      calculate_risk_score evs u { p with latency := some 150 } now := by
    unfold calculate_risk_score
    simp [h]
  have hlat : (calculate_risk_score evs u p now).2.latency_anomaly ≠ 70 := by
    show latencyScore (p.latency.getD 150) (avgLatency evs u) ≠ 70
    rw [h]
    unfold latencyScore
    split_ifs with h1 h2 <;> norm_num at h1 ⊢
  have hex : ∃ e : Event,
      (log_attempt fit ⟨evs, mm⟩ u step p success now).state.events = evs ++ [e] ∧
      e.latency = 0 := by
    cases mm with
    | none => exact ⟨_, rfl, by simp [h]⟩
    | some m => exact ⟨_, rfl, by simp [h]⟩
  have hfil := hev _ hex
  refine ⟨hsig, hlat, hex, hfil, ?_, ?_⟩
  · unfold train_data
    rw [hfil]
    simp
  · intro u'
    unfold avgLatency
    obtain ⟨e, he, hl⟩ := hex
    rw [he, List.filter_append]
    simp [hl]

/-- C10 witness: a first attempt with no latency key has a latency signal
other than 70, and nothing latency-positive is persisted for training. -/
theorem C10_witness :
    (calculate_risk_score ([] : List Event) "u" p0 0).2.latency_anomaly ≠ 70 ∧
    ((log_attempt tf0 st0 "u" 1 p0 true 0).state.events.filter
      (fun e => decide (0 < e.latency))) = [] := by
  have h := C10_missing_latency tf0 st0 "u" 1 p0 true 0 rfl
  exact ⟨h.2.1, by simpa [st0] using h.2.2.2.1⟩

theorem dedup_length_le_of_sublist {α : Type} [DecidableEq α] {l1 l2 : List α}
    (h : l1.Sublist l2) : l1.dedup.length ≤ l2.dedup.length := by
  rw [← List.card_toFinset, ← List.card_toFinset]
  apply Finset.card_le_card
  intro a ha
  rw [List.mem_toFinset] at ha ⊢
  exact h.subset ha

theorem trainVelocity_decompose (evs : List Event) (e : Event) :
    trainVelocity evs e =
      windowCount evs e.username (e.timestamp - 300000) e.timestamp
        + countAfter evs e.username e.timestamp := by
  induction evs with
  | nil => rfl
  | cons x xs ih =>
    unfold trainVelocity windowCount countAfter at ih ⊢
    simp only [List.filter_cons]
    by_cases hb : (x.username == e.username) = true <;>
      by_cases h1 : e.timestamp - 300000 < x.timestamp <;>
        by_cases h2 : x.timestamp ≤ e.timestamp <;>
          by_cases h3 : e.timestamp < x.timestamp <;>
            simp [hb, h1, h2, h3] <;> omega

theorem claimedDevices_le_trainDeviceCount (evs : List Event) (e : Event) :
    distinctDevicesBetween evs e.username (e.timestamp - 1800000) e.timestamp ≤
      trainDeviceCount evs e := by
  unfold distinctDevicesBetween trainDeviceCount
  apply dedup_length_le_of_sublist
  apply List.Sublist.map
  have h : List.filter
      (fun x => x.username == e.username && decide (e.timestamp - 1800000 < x.timestamp)
        && decide (x.timestamp < e.timestamp)) evs
      = List.filter (fun x => decide (x.timestamp < e.timestamp))
        (List.filter (fun x =>
          x.username == e.username && decide (e.timestamp - 1800000 < x.timestamp)) evs) := by
    rw [List.filter_filter]
    apply List.filter_congr
    intro a _
    by_cases hb : (a.username == e.username) = true <;>
      by_cases h1 : e.timestamp - 1800000 < a.timestamp <;>
        by_cases h2 : a.timestamp < e.timestamp <;> simp [hb, h1, h2]
  rw [h]
  exact List.filter_sublist _

theorem countBetween_le_windowCount (evs : List Event) (u : String) (lo hi : ℤ) :
    countBetween evs u lo hi ≤ windowCount evs u lo hi := by
  unfold countBetween windowCount
  have h : List.filter
      (fun e => e.username == u && decide (lo < e.timestamp) && decide (e.timestamp < hi)) evs
      = List.filter (fun e => e.timestamp < hi)
        (List.filter (fun e =>
          e.username == u && decide (lo < e.timestamp) && decide (e.timestamp ≤ hi)) evs) := by
    rw [List.filter_filter]
    apply List.filter_congr
    intro a _
    by_cases hb : (a.username == u) = true <;>
      by_cases h1 : lo < a.timestamp <;>
        by_cases h2 : a.timestamp < hi <;>
          simp [hb, h1, h2, le_of_lt]
  rw [h]
  exact List.Sublist.length_le (List.filter_sublist _)

/-- C5 counterexample: for a user with a first event at time 0 and a second
event 100 seconds later on another device, the training row of the first
event carries velocity 2 and device count 2 — the subqueries count the
event itself and the later event — while the feature vector the claim
describes (preceding-window counts) carries 0 and 0. -/
theorem C5_counterexample :
    train_row [e5a, e5b] e5a = [100, 0, 1, 2, 2] ∧
    claimed_feature_row [e5a, e5b] e5a = [100, 0, 1, 0, 0] ∧
    train_row [e5a, e5b] e5a ≠ claimed_feature_row [e5a, e5b] e5a := by
  have hv : trainVelocity [e5a, e5b] e5a = 2 := by decide
  have hd : trainDeviceCount [e5a, e5b] e5a = 2 := by decide
  have hv' : countBetween [e5a, e5b] e5a.username (e5a.timestamp - 300000)
      e5a.timestamp = 0 := by decide
  have hd' : distinctDevicesBetween [e5a, e5b] e5a.username (e5a.timestamp - 1800000)
      e5a.timestamp = 0 := by decide
  have h1 : train_row [e5a, e5b] e5a = [100, 0, 1, 2, 2] := by
    unfold train_row
    rw [hv, hd]
    norm_num [e5a]
  have h2 : claimed_feature_row [e5a, e5b] e5a = [100, 0, 1, 0, 0] := by
    unfold claimed_feature_row
    rw [hv', hd']
    norm_num [e5a]
  refine ⟨h1, h2, ?_⟩
  rw [h1, h2]
  norm_num

/-- C5 amended: training and scoring share only the order of the five
features, not their definitions.  The training velocity feature for event
e has no upper time bound: it equals the preceding-5-minute-window count
(taken up to and including the timestamp of e, hence including e itself
once stored) plus the count of the user's strictly later events; the
training device-count feature likewise has no upper bound and is at least
the preceding-window distinct-device count; the risk feature of a
training row is the stored — possibly ML-blended — risk_score. -/
theorem C5_amended_feature_mismatch (evs : List Event) (e : Event) :
    train_row evs e =
      [e.latency, e.risk_score, ((e.step : ℤ) : ℚ),
       ((windowCount evs e.username (e.timestamp - 300000) e.timestamp
           + countAfter evs e.username e.timestamp : ℕ) : ℚ),
       ((trainDeviceCount evs e : ℕ) : ℚ)] ∧
    countBetween evs e.username (e.timestamp - 300000) e.timestamp ≤
      windowCount evs e.username (e.timestamp - 300000) e.timestamp ∧
    distinctDevicesBetween evs e.username (e.timestamp - 1800000) e.timestamp ≤
      trainDeviceCount evs e := by
  refine ⟨?_, countBetween_le_windowCount evs e.username _ _,
    claimedDevices_le_trainDeviceCount evs e⟩
  unfold train_row
  rw [trainVelocity_decompose]

end UEBA
